import Mathlib

/-!
Shallow embedding of `src/pgdummy.c`: the pgaudit.log GUC check/assign hooks.
Machine `int` bit operations are modelled on `Nat` with an explicit 32-bit
mask (`LOG_ALL = 0xFFFFFFFF`); `~class` on a 32-bit int is `LOG_ALL ^^^ class`.
String scanning is modelled structurally over `List Char` so that every
definition evaluates by kernel reduction.
-/

namespace Pgdummy

/-- Bit for DDL statements (`LOG_DDL`, `1 << 0`). -/
def LOG_DDL : Nat := 1

/-- Bit for functions and DO blocks (`LOG_FUNCTION`, `1 << 1`). -/
def LOG_FUNCTION : Nat := 2

/-- Bit for statements not otherwise covered (`LOG_MISC`, `1 << 2`). -/
def LOG_MISC : Nat := 4

/-- Bit for SELECTs (`LOG_READ`, `1 << 3`). -/
def LOG_READ : Nat := 8

/-- Bit for role and privilege statements (`LOG_ROLE`, `1 << 4`). -/
def LOG_ROLE : Nat := 16

/-- Bit for INSERT/UPDATE/DELETE/TRUNCATE (`LOG_WRITE`, `1 << 5`). -/
def LOG_WRITE : Nat := 32

/-- Bit for SET statements (`LOG_MISC_SET`, `1 << 6`). -/
def LOG_MISC_SET : Nat := 64

/-- `LOG_NONE`: nothing. -/
def LOG_NONE : Nat := 0

/-- `LOG_ALL`: all 32 bits set (`0xFFFFFFFF`). -/
def LOG_ALL : Nat := 0xFFFFFFFF

/-- ASCII lower-casing of one character, as `tolower` does for ASCII input. -/
def asciiLower (c : Char) : Char :=
  if 'A' ≤ c && c ≤ 'Z' then Char.ofNat (c.toNat + 32) else c

/-- ASCII lower-casing of a string. -/
def lowerStr (s : String) : String := String.mk (s.data.map asciiLower)

/-- `pg_strcasecmp(a, b) == 0`: case-insensitive (ASCII) string equality. -/
def pg_strcasecmp_eq (a b : String) : Bool :=
  (lowerStr a).data == (lowerStr b).data

/-- The token-to-class cascade of `check_pgaudit_log` (lines 121-145):
returns the `class` value for a recognized token, `none` when the token is
unrecognized (the `else` branch that makes the check fail). -/
def resolveClass (token : String) : Option Nat :=
  if pg_strcasecmp_eq token "NONE" then some LOG_NONE
  else if pg_strcasecmp_eq token "ALL" then some LOG_ALL
  else if pg_strcasecmp_eq token "DDL" then some LOG_DDL
  else if pg_strcasecmp_eq token "FUNCTION" then some LOG_FUNCTION
  else if pg_strcasecmp_eq token "MISC" then some (LOG_MISC ||| LOG_MISC_SET)
  else if pg_strcasecmp_eq token "MISC_SET" then some LOG_MISC_SET
  else if pg_strcasecmp_eq token "READ" then some LOG_READ
  else if pg_strcasecmp_eq token "ROLE" then some LOG_ROLE
  else if pg_strcasecmp_eq token "WRITE" then some LOG_WRITE
  else none

/-- Lines 113-118: a leading `-` marks the token subtractive and is stripped. -/
def stripSubtract (token : String) : Bool × String :=
  match token.data with
  | '-' :: rest => (true, String.mk rest)
  | _ => (false, token)

/-- One iteration of the `foreach` loop body (lines 107-152): strip the
negation marker, resolve the token, and fold the class bits into the
accumulator (`*flags |= class` or `*flags &= ~class` on a 32-bit int);
`none` when the token is unrecognized. -/
def foldToken (acc : Nat) (token : String) : Option Nat :=
  let sub := stripSubtract token
  match resolveClass sub.2 with
  | none => none
  | some cl => some (if sub.1 then acc &&& (LOG_ALL ^^^ cl) else acc ||| cl)

/-- The whole `foreach` loop: left-to-right fold over the token list,
failing at the first unrecognized token. -/
def foldTokens (acc : Nat) : List String → Option Nat
  | [] => some acc
  | t :: ts =>
    match foldToken acc t with
    | none => none
    | some acc2 => foldTokens acc2 ts

/-- Whitespace characters recognized when trimming list tokens. -/
def isWS (c : Char) : Bool :=
  c == ' ' || c == '\t' || c == '\n' || c == '\r'

/-- Trim leading and trailing whitespace from a character list. -/
def trimChars (cs : List Char) : List Char :=
  ((cs.dropWhile isWS).reverse.dropWhile isWS).reverse

/-- Split a character list at every comma. -/
def splitComma (cs : List Char) (cur : List Char) : List (List Char) :=
  match cs with
  | [] => [cur.reverse]
  | c :: rest =>
    if c == ',' then cur.reverse :: splitComma rest []
    else splitComma rest (c :: cur)

/-- Modelled from the spec: `SplitIdentifierString` (PostgreSQL host code,
not under `src/`) splits the raw value on commas into trimmed tokens, per
the spec's list-syntax rules: an empty or all-whitespace input, or an empty
token, is a list-syntax error (`none`); quoting of tokens is not exercised
by any claim and is not modelled. -/
def splitIdentifierString (raw : String) : Option (List String) :=
  if trimChars raw.data == [] then none
  else
    let toks := (splitComma raw.data []).map trimChars
    if toks.any (fun t => t == []) then none
    else some (toks.map String.mk)

/-- Result of the check hook: `success flags` models `return true` with
`*extra = flags`; `failure d` models `return false`, where `d` is the
message passed to `GUC_check_errdetail`, if any was set on that path. -/
inductive CheckResult where
  | success (flags : Nat) : CheckResult
  | failure (errdetail : Option String) : CheckResult
deriving DecidableEq, Repr

/-- The process-wide live configuration: `auditLogBitmap` (line 73) and
`auditLogCatalog` (line 78). -/
structure GlobalState where
  auditLogBitmap : Nat
  auditLogCatalog : Bool
deriving DecidableEq, Repr

/-- Initial values: `auditLogBitmap = LOG_NONE`, `auditLogCatalog = true`. -/
def initialState : GlobalState := ⟨LOG_NONE, true⟩

/-- `check_pgaudit_log` (lines 80-161), with the global state threaded
explicitly and the outcome of the one checked `malloc` made an explicit
parameter `mallocOk` (line 102: on allocation failure the hook returns
false). Every return path of the C function leaves the globals untouched,
which the threaded state makes visible. -/
def check_pgaudit_log (st : GlobalState) (newVal : String) (mallocOk : Bool) :
    CheckResult × GlobalState :=
  match splitIdentifierString newVal with
  | none => (.failure (some "List syntax is invalid"), st)
  | some toks =>
    if mallocOk then
      match foldTokens 0 toks with
      | none => (.failure none, st)
      | some flags => (.success flags, st)
    else (.failure none, st)

/-- `assign_pgaudit_log` (lines 168-173): if `extra` is set, store it into
`auditLogBitmap`; otherwise the assignment is suppressed and nothing
changes. Total: it has no failure outcome. -/
def assign_pgaudit_log (st : GlobalState) (extra : Option Nat) : GlobalState :=
  match extra with
  | some flags => { st with auditLogBitmap := flags }
  | none => st

/-- Masking a 32-bit quantity with `LOG_ALL` (all 32 bits) is the identity. -/
lemma land_LOG_ALL (acc : Nat) (h : acc < 2 ^ 32) : acc &&& LOG_ALL = acc := by
  apply Nat.eq_of_testBit_eq
  intro i
  rw [Nat.testBit_land]
  by_cases hi : i < 32
  · have hm : Nat.testBit LOG_ALL i = true := by
      have he : LOG_ALL = 2 ^ 32 - 1 := by norm_num [LOG_ALL]
      rw [he, Nat.testBit_two_pow_sub_one]
      simpa using hi
    rw [hm, Bool.and_true]
  · have ha : acc.testBit i = false :=
      Nat.testBit_eq_false_of_lt
        (lt_of_lt_of_le h (Nat.pow_le_pow_right (by norm_num) (le_of_not_lt hi)))
    simp [ha]

/-- If some token of the list is unrecognized after stripping its negation
marker, the whole fold fails, for every starting accumulator. -/
lemma foldTokens_eq_none_of_mem (t : String)
    (hbad : resolveClass (stripSubtract t).2 = none) :
    ∀ (ts : List String), t ∈ ts → ∀ acc, foldTokens acc ts = none := by
  intro ts
  induction ts with
  | nil => intro hmem; cases hmem
  | cons hd tl ih =>
    intro hmem acc
    rcases List.mem_cons.mp hmem with heq | htl
    · subst heq
      simp only [foldTokens, foldToken, hbad]
    · simp only [foldTokens]
      cases hft : foldToken acc hd with
      | none => rfl
      | some acc2 => exact ih htl acc2

end Pgdummy

namespace Pgdummy

/-- C1: the empty input string is rejected by `check_pgaudit_log` with the
list-syntax error detail, deterministically, on every malloc outcome, and no
candidate is produced. -/
theorem C1_validate_empty_fails (st : GlobalState) (mallocOk : Bool) :
    check_pgaudit_log st "" mallocOk
      = (.failure (some "List syntax is invalid"), st) := rfl

/-- C2: `check_pgaudit_log` leaves the live configuration (`auditLogBitmap`
and `auditLogCatalog`) unchanged on every path: list-syntax failure,
allocation failure, unknown-token failure, and success. -/
theorem C2_check_preserves_state (st : GlobalState) (newVal : String)
    (mallocOk : Bool) :
    (check_pgaudit_log st newVal mallocOk).2 = st := by
  unfold check_pgaudit_log
  cases splitIdentifierString newVal with
  | none => rfl
  | some toks =>
    cases mallocOk with
    | false => rfl
    | true =>
      simp only [if_true]
      cases foldTokens 0 toks with
      | none => rfl
      | some flags => rfl

/-- C3: `assign_pgaudit_log` with a present candidate sets `auditLogBitmap`
to exactly that value (touching nothing else), with an absent candidate it
leaves the state unchanged; it is a total function, so it never fails. -/
theorem C3_assign_commit (st : GlobalState) (flags : Nat) :
    assign_pgaudit_log st (some flags) = { st with auditLogBitmap := flags } ∧
    assign_pgaudit_log st none = st := ⟨rfl, rfl⟩

/-- C4: the fold is strictly left to right, so a later `-READ` removes the
bit added by an earlier `READ`: validating `"READ,WRITE,-READ"` succeeds
with exactly `LOG_WRITE` and nothing else. -/
theorem C4_fold_left_to_right (st : GlobalState) :
    check_pgaudit_log st "READ,WRITE,-READ" true = (.success LOG_WRITE, st) := rfl

/-- C5 counterexample: validating `"bogus"` fails, but the failure carries
no error detail at all (`errdetail = none`) — the unknown-token path of the
code returns false without reporting the offending token text. -/
theorem C5_counterexample :
    check_pgaudit_log initialState "bogus" true = (.failure none, initialState) := by
  decide

/-- C5 (amended): any input whose token list contains a token that, after
stripping an optional leading negation marker, matches none of the nine
recognized names makes `check_pgaudit_log` fail with no candidate produced;
the failure carries no error detail (the offending token is not reported). -/
theorem C5_unknown_token_fails (st : GlobalState) (mallocOk : Bool)
    (s : String) (toks : List String)
    (hsplit : splitIdentifierString s = some toks)
    (t : String) (hmem : t ∈ toks)
    (hbad : resolveClass (stripSubtract t).2 = none) :
    check_pgaudit_log st s mallocOk = (.failure none, st) := by
  unfold check_pgaudit_log
  rw [hsplit]
  cases mallocOk with
  | false => rfl
  | true =>
    simp only [if_true]
    rw [foldTokens_eq_none_of_mem t hbad toks hmem 0]

/-- C5 witness: the amended theorem applied at the concrete input
`"DDL,bogus,READ"`. -/
theorem C5_unknown_token_fails_witness :
    check_pgaudit_log initialState "DDL,bogus,READ" true
      = (.failure none, initialState) :=
  C5_unknown_token_fails initialState true "DDL,bogus,READ"
    ["DDL", "bogus", "READ"] (by decide) "bogus" (by simp) (by decide)

/-- C6: `"MISC"` validates to the union of the MISC and MISC_SET bits and
nothing else, `"MISC_SET"` validates to the MISC_SET bit alone, and every
other concrete class name resolves to exactly one bit (a power of two). -/
theorem C6_misc_compound :
    (∀ st : GlobalState,
      check_pgaudit_log st "MISC" true
        = (.success (LOG_MISC ||| LOG_MISC_SET), st) ∧
      check_pgaudit_log st "MISC_SET" true = (.success LOG_MISC_SET, st)) ∧
    (∀ name ∈ ["DDL", "FUNCTION", "MISC_SET", "READ", "ROLE", "WRITE"],
      ∃ i, resolveClass name = some (2 ^ i)) := by
  refine ⟨fun st => ⟨rfl, rfl⟩, ?_⟩
  intro name h
  fin_cases h
  · exact ⟨0, rfl⟩
  · exact ⟨1, rfl⟩
  · exact ⟨6, rfl⟩
  · exact ⟨3, rfl⟩
  · exact ⟨4, rfl⟩
  · exact ⟨5, rfl⟩

/-- C6 witness: the single-bit clause applied at the concrete name
`"READ"`, together with the concrete MISC equations at the initial state. -/
theorem C6_misc_compound_witness :
    (∃ i, resolveClass "READ" = some (2 ^ i)) ∧
    check_pgaudit_log initialState "MISC" true
      = (.success (LOG_MISC ||| LOG_MISC_SET), initialState) :=
  ⟨C6_misc_compound.2 "READ" (by simp), (C6_misc_compound.1 initialState).1⟩

/-- C7: the meta-tokens give the extreme values of the fold: `"ALL"`
validates to the all-bits mask, `"NONE"` to zero, and `"ALL,-WRITE"` to all
bits except `LOG_WRITE`. -/
theorem C7_meta_tokens (st : GlobalState) :
    check_pgaudit_log st "ALL" true = (.success LOG_ALL, st) ∧
    check_pgaudit_log st "NONE" true = (.success 0, st) ∧
    check_pgaudit_log st "ALL,-WRITE" true
      = (.success (LOG_ALL ^^^ LOG_WRITE), st) := ⟨rfl, rfl, rfl⟩

/-- C8: token resolution is case-insensitive: any two spellings with the
same ASCII lower-casing resolve identically, and the three spellings
`"ddl"`, `"DDL"`, `"Ddl"` all validate to exactly the DDL bit. -/
theorem C8_case_insensitive :
    (∀ s t : String, lowerStr s = lowerStr t → resolveClass s = resolveClass t) ∧
    (∀ st : GlobalState,
      check_pgaudit_log st "ddl" true = (.success LOG_DDL, st) ∧
      check_pgaudit_log st "DDL" true = (.success LOG_DDL, st) ∧
      check_pgaudit_log st "Ddl" true = (.success LOG_DDL, st)) := by
  constructor
  · intro s t h
    unfold resolveClass pg_strcasecmp_eq
    rw [h]
  · intro st
    exact ⟨rfl, rfl, rfl⟩

/-- C8 witness: the invariance clause applied at the concrete spellings
`"dDL"` and `"DdL"`, and the concrete `"Ddl"` equation at the initial
state. -/
theorem C8_case_insensitive_witness :
    resolveClass "dDL" = resolveClass "DdL" ∧
    check_pgaudit_log initialState "Ddl" true
      = (.success LOG_DDL, initialState) :=
  ⟨C8_case_insensitive.1 "dDL" "DdL" (by decide),
   (C8_case_insensitive.2 initialState).2.2⟩

/-- C9: the token `"none"` is an identity of the fold, not a short-circuit:
an additive `"none"` leaves the accumulator unchanged (`acc ||| 0`), a
subtractive `"-none"` leaves any 32-bit accumulator unchanged
(`acc &&& ~0`), and `"DDL,NONE"` validates to exactly the DDL bit. -/
theorem C9_none_identity :
    (∀ acc : Nat, foldToken acc "none" = some acc) ∧
    (∀ acc : Nat, acc < 2 ^ 32 → foldToken acc "-none" = some acc) ∧
    (∀ st : GlobalState,
      check_pgaudit_log st "DDL,NONE" true = (.success LOG_DDL, st)) := by
  refine ⟨?_, ?_, fun st => rfl⟩
  · intro acc
    have h : foldToken acc "none" = some (acc ||| 0) := rfl
    rw [h, Nat.or_zero]
  · intro acc hacc
    have h : foldToken acc "-none" = some (acc &&& LOG_ALL) := rfl
    rw [h, land_LOG_ALL acc hacc]

/-- C9 witness: the subtractive-`"none"` clause applied at the concrete
accumulator 37, with the additive clause and the concrete fold alongside. -/
theorem C9_none_identity_witness :
    foldToken 37 "-none" = some 37 ∧ foldToken 37 "none" = some 37 ∧
    check_pgaudit_log initialState "DDL,NONE" true
      = (.success LOG_DDL, initialState) :=
  ⟨C9_none_identity.2.1 37 (by norm_num), C9_none_identity.1 37,
   C9_none_identity.2.2 initialState⟩

/-- C10: a subtractive `"-MISC"` clears both the MISC bit and the MISC_SET
bit from every accumulator, and `"ALL,-MISC"` validates to a value with
neither of those bits set. -/
theorem C10_subtract_misc :
    (∀ acc : Nat,
      foldToken acc "-MISC"
        = some (acc &&& (LOG_ALL ^^^ (LOG_MISC ||| LOG_MISC_SET))) ∧
      (acc &&& (LOG_ALL ^^^ (LOG_MISC ||| LOG_MISC_SET))) &&& LOG_MISC = 0 ∧
      (acc &&& (LOG_ALL ^^^ (LOG_MISC ||| LOG_MISC_SET))) &&& LOG_MISC_SET = 0) ∧
    (∀ st : GlobalState,
      check_pgaudit_log st "ALL,-MISC" true
        = (.success (LOG_ALL ^^^ (LOG_MISC ||| LOG_MISC_SET)), st) ∧
      (LOG_ALL ^^^ (LOG_MISC ||| LOG_MISC_SET)) &&& LOG_MISC = 0 ∧
      (LOG_ALL ^^^ (LOG_MISC ||| LOG_MISC_SET)) &&& LOG_MISC_SET = 0) := by
  constructor
  · intro acc
    refine ⟨rfl, ?_, ?_⟩
    · rw [Nat.land_assoc,
        (by decide : (LOG_ALL ^^^ (LOG_MISC ||| LOG_MISC_SET)) &&& LOG_MISC = 0)]
      simp
    · rw [Nat.land_assoc,
        (by decide : (LOG_ALL ^^^ (LOG_MISC ||| LOG_MISC_SET)) &&& LOG_MISC_SET = 0)]
      simp
  · intro st
    exact ⟨rfl, by decide, by decide⟩

end Pgdummy
